import Mathlib

/-!
Verification of the ENGIPIT geotechnical foundation calculators
(shallow foundations, single piles, pile groups, retaining walls)
against their natural-language specification.  The calculators in
src/app.py are pure arithmetic over Python floats; they are modelled
here over the real numbers, with the same formulas, branch structure
and argument order as the source.
-/

namespace ENGIPIT

open Real

/-- Embedding of Python math.radians: degrees times pi over 180. -/
noncomputable def radians (degrees : ℝ) : ℝ := degrees * (π / 180)

/-- Embedding of ShallowFoundationCalculator.calculate_bearing_capacity_factors:
Terzaghi factors (Nc, Nq, Ngamma) from the friction angle in degrees. -/
noncomputable def calculate_bearing_capacity_factors (friction_angle : ℝ) : ℝ × ℝ × ℝ :=
  let phi_rad := radians friction_angle
  let Nq := Real.exp (π * Real.tan phi_rad) *
    (Real.tan (radians (45 + friction_angle / 2))) ^ 2
  let Nc := if friction_angle > 0 then (Nq - 1) / Real.tan phi_rad else 5.14
  let Ngamma := 2 * (Nq + 1) * Real.tan phi_rad
  (Nc, Nq, Ngamma)

/-- Embedding of ShallowFoundationCalculator.calculate_ultimate_bearing_capacity:
Terzaghi equation qu = c*Nc + gamma*Df*Nq + 0.5*gamma*B*Ngamma.
The length argument is accepted, as in the source, and not used. -/
noncomputable def calculate_ultimate_bearing_capacity
    (width length depth unit_weight cohesion friction_angle : ℝ) : ℝ :=
  let Nf := calculate_bearing_capacity_factors friction_angle
  cohesion * Nf.1 + unit_weight * depth * Nf.2.1 + 0.5 * unit_weight * width * Nf.2.2

/-- Embedding of ShallowFoundationCalculator.calculate_allowable_bearing_capacity
(the source default for the factor of safety is 3.0, passed explicitly here). -/
noncomputable def calculate_allowable_bearing_capacity
    (ultimate_capacity factor_of_safety : ℝ) : ℝ :=
  ultimate_capacity / factor_of_safety

/-- Embedding of ShallowFoundationCalculator.calculate_applied_pressure:
load divided by the footing area width*length. -/
noncomputable def calculate_applied_pressure (load width length : ℝ) : ℝ :=
  load / (width * length)

/-- Embedding of DeepFoundationCalculator.calculate_pile_end_bearing:
tip area times unit end bearing qb = 9*c + sigma_v*Nq. -/
noncomputable def calculate_pile_end_bearing
    (pile_diameter unit_weight pile_length friction_angle cohesion : ℝ) : ℝ :=
  let area := π * (pile_diameter / 2) ^ 2
  let sigma_v := unit_weight * pile_length
  let phi_rad := radians friction_angle
  let Nq := Real.exp (π * Real.tan phi_rad) *
    (Real.tan (radians (45 + friction_angle / 2))) ^ 2
  let qb := cohesion * 9 + sigma_v * Nq
  qb * area

/-- Embedding of DeepFoundationCalculator.calculate_pile_skin_friction:
unit skin friction fs = c + K*sigma_v_avg*tan(delta) over the shaft surface,
with K and delta chosen by the pile-type string as in the source. -/
noncomputable def calculate_pile_skin_friction
    (pile_diameter pile_length unit_weight friction_angle cohesion : ℝ)
    (pile_type : String) : ℝ :=
  let perimeter := π * pile_diameter
  let sigma_v_avg := unit_weight * pile_length / 2
  let K : ℝ := if pile_type = "driven" then 0.8 else 0.7
  let delta := if pile_type = "driven" then 0.75 * friction_angle
    else 0.6 * friction_angle
  let fs := cohesion + K * sigma_v_avg * Real.tan (radians delta)
  fs * perimeter * pile_length

/-- Embedding of DeepFoundationCalculator.calculate_pile_capacity:
returns the tuple (Qu, Qa, Qb, Qs) with Qu = Qb + Qs and Qa = Qu / FOS
(the source default for the factor of safety is 2.5, passed explicitly). -/
noncomputable def calculate_pile_capacity
    (pile_diameter pile_length unit_weight friction_angle cohesion : ℝ)
    (pile_type : String) (factor_of_safety : ℝ) : ℝ × ℝ × ℝ × ℝ :=
  let Qb := calculate_pile_end_bearing pile_diameter unit_weight pile_length
    friction_angle cohesion
  let Qs := calculate_pile_skin_friction pile_diameter pile_length unit_weight
    friction_angle cohesion pile_type
  let Qu := Qb + Qs
  let Qa := Qu / factor_of_safety
  (Qu, Qa, Qb, Qs)

/-- Embedding of DeepFoundationCalculator.calculate_pile_group_efficiency:
piecewise in spacing/diameter, clamped by min to 1.0.  The number of piles
is accepted, as in the source, and not used. -/
noncomputable def calculate_pile_group_efficiency
    (num_piles : ℕ) (spacing diameter : ℝ) : ℝ :=
  let s_over_d := spacing / diameter
  let efficiency : ℝ :=
    if s_over_d ≥ 6 then 1.0
    else if s_over_d ≥ 3 then 0.7 + 0.3 * (s_over_d - 3) / 3
    else 0.7 * s_over_d / 3
  min efficiency 1.0

/-- Embedding of RetainingWallCalculator.calculate_active_earth_pressure_coefficient:
Rankine Ka = tan^2(45 - phi/2). -/
noncomputable def calculate_active_earth_pressure_coefficient (friction_angle : ℝ) : ℝ :=
  Real.tan (radians (45 - friction_angle / 2)) ^ 2

/-- Embedding of RetainingWallCalculator.calculate_passive_earth_pressure_coefficient:
Rankine Kp = tan^2(45 + phi/2). -/
noncomputable def calculate_passive_earth_pressure_coefficient (friction_angle : ℝ) : ℝ :=
  Real.tan (radians (45 + friction_angle / 2)) ^ 2

/-- Embedding of RetainingWallCalculator.calculate_total_active_force:
returns (total force, location of the resultant above the base).  The
cohesion argument is accepted, as in the source, and not used. -/
noncomputable def calculate_total_active_force
    (wall_height unit_weight friction_angle cohesion surcharge : ℝ) : ℝ × ℝ :=
  let Ka := calculate_active_earth_pressure_coefficient friction_angle
  let pa_soil := Ka * unit_weight * wall_height
  let pa_surcharge := Ka * surcharge
  let Fa_soil := 0.5 * pa_soil * wall_height
  let Fa_surcharge := pa_surcharge * wall_height
  let Fa_total := Fa_soil + Fa_surcharge
  let moment_soil := Fa_soil * (wall_height / 3)
  let moment_surcharge := Fa_surcharge * (wall_height / 2)
  let location := (moment_soil + moment_surcharge) / Fa_total
  (Fa_total, location)

/-- Embedding of the caller-side safety-factor composition used at the two
controller call sites (lines 541 and 597 of src/app.py): allowable capacity
over demand when the demand is positive, Python float infinity otherwise,
modelled as the top element of the extended reals. -/
noncomputable def safety_factor (allowable demand : ℝ) : EReal :=
  if demand > 0 then ((allowable / demand : ℝ) : EReal) else ⊤

/- Shared helper lemmas about the embedded formulas. -/

lemma radians_zero : radians 0 = 0 := by
  simp [radians]

lemma radians_forty_five : radians 45 = π / 4 := by
  unfold radians; ring

lemma bearing_capacity_factors_zero :
    calculate_bearing_capacity_factors 0 = (5.14, 1, 0) := by
  have h45 : (45 : ℝ) + 0 / 2 = 45 := by norm_num
  unfold calculate_bearing_capacity_factors
  rw [h45, radians_zero, radians_forty_five]
  norm_num [Real.tan_zero, Real.tan_pi_div_four, Real.exp_zero]

/-- C4: at friction angle exactly 0 the bearing-capacity factors are the
defined cohesive special case Nc = 5.14 together with Nq = 1 and Ngamma = 0
(here exactly, hence within any numerical tolerance). -/
theorem bearing_capacity_factors_at_phi_zero :
    calculate_bearing_capacity_factors 0 = (5.14, 1, 0) :=
  bearing_capacity_factors_zero

/-- C1: for every input, calculate_pile_capacity returns the tuple
(Qu, Qa, Qb, Qs) whose Qb and Qs components are exactly the results of
calculate_pile_end_bearing and calculate_pile_skin_friction on the same
inputs, with Qu = Qb + Qs and Qa = Qu / factor_of_safety exactly. -/
theorem pile_capacity_composition
    (pile_diameter pile_length unit_weight friction_angle cohesion : ℝ)
    (pile_type : String) (factor_of_safety : ℝ) :
    (calculate_pile_capacity pile_diameter pile_length unit_weight friction_angle
        cohesion pile_type factor_of_safety).2.2.1 =
      calculate_pile_end_bearing pile_diameter unit_weight pile_length
        friction_angle cohesion ∧
    (calculate_pile_capacity pile_diameter pile_length unit_weight friction_angle
        cohesion pile_type factor_of_safety).2.2.2 =
      calculate_pile_skin_friction pile_diameter pile_length unit_weight
        friction_angle cohesion pile_type ∧
    (calculate_pile_capacity pile_diameter pile_length unit_weight friction_angle
        cohesion pile_type factor_of_safety).1 =
      (calculate_pile_capacity pile_diameter pile_length unit_weight friction_angle
        cohesion pile_type factor_of_safety).2.2.1 +
      (calculate_pile_capacity pile_diameter pile_length unit_weight friction_angle
        cohesion pile_type factor_of_safety).2.2.2 ∧
    (calculate_pile_capacity pile_diameter pile_length unit_weight friction_angle
        cohesion pile_type factor_of_safety).2.1 =
      (calculate_pile_capacity pile_diameter pile_length unit_weight friction_angle
        cohesion pile_type factor_of_safety).1 / factor_of_safety :=
  ⟨rfl, rfl, rfl, rfl⟩

/-- C10: the ultimate bearing capacity does not depend on the footing length
argument, while the applied pressure does depend on it. -/
theorem ultimate_bearing_capacity_length_independent :
    (∀ width depth unit_weight cohesion friction_angle length1 length2 : ℝ,
      calculate_ultimate_bearing_capacity width length1 depth unit_weight
        cohesion friction_angle =
      calculate_ultimate_bearing_capacity width length2 depth unit_weight
        cohesion friction_angle) ∧
    calculate_applied_pressure 1000 2 2 ≠ calculate_applied_pressure 1000 2 4 := by
  constructor
  · intro width depth unit_weight cohesion friction_angle length1 length2
    rfl
  · unfold calculate_applied_pressure
    norm_num

lemma ultimate_bearing_capacity_scenario_one :
    calculate_ultimate_bearing_capacity 2 2 1 18 50 0 = 275 := by
  unfold calculate_ultimate_bearing_capacity
  rw [bearing_capacity_factors_zero]
  norm_num

/-- C2: the ultimate bearing capacity is the Terzaghi combination of the
bearing-capacity factors, qu = c*Nc + gamma*Df*Nq + 0.5*gamma*B*Ngamma, and
for B = L = 2, Df = 1, gamma = 18, c = 50, phi = 0 the result is 275 kPa
within a tolerance of 1. -/
theorem ultimate_bearing_capacity_terzaghi :
    (∀ width length depth unit_weight cohesion friction_angle : ℝ,
      0 ≤ friction_angle → friction_angle < 90 →
      calculate_ultimate_bearing_capacity width length depth unit_weight
        cohesion friction_angle =
      cohesion * (calculate_bearing_capacity_factors friction_angle).1 +
        unit_weight * depth * (calculate_bearing_capacity_factors friction_angle).2.1 +
        0.5 * unit_weight * width *
          (calculate_bearing_capacity_factors friction_angle).2.2) ∧
    |calculate_ultimate_bearing_capacity 2 2 1 18 50 0 - 275| ≤ 1 := by
  constructor
  · intro width length depth unit_weight cohesion friction_angle h0 h90
    rfl
  · rw [ultimate_bearing_capacity_scenario_one]
    norm_num

/-- Witness for C2 at width 3, length 4, depth 1, unit weight 18,
cohesion 10, friction angle 30. -/
theorem ultimate_bearing_capacity_terzaghi_witness :
    calculate_ultimate_bearing_capacity 3 4 1 18 10 30 =
      10 * (calculate_bearing_capacity_factors 30).1 +
        18 * 1 * (calculate_bearing_capacity_factors 30).2.1 +
        0.5 * 18 * 3 * (calculate_bearing_capacity_factors 30).2.2 :=
  ultimate_bearing_capacity_terzaghi.1 3 4 1 18 10 30 (by norm_num) (by norm_num)

/-- C9: the caller-side safety-factor composition returns positive infinity
when the demand is exactly zero and allowable divided by demand when the
demand is strictly positive. -/
theorem safety_factor_convention (allowable demand : ℝ) :
    (demand = 0 → safety_factor allowable demand = ⊤) ∧
    (0 < demand → safety_factor allowable demand = ((allowable / demand : ℝ) : EReal)) := by
  constructor
  · intro h
    unfold safety_factor
    rw [h]
    norm_num
  · intro h
    unfold safety_factor
    rw [if_pos h]

/-- Witness for C9 at demand 0 (infinite margin) and demand 2. -/
theorem safety_factor_convention_witness :
    safety_factor 5 0 = ⊤ ∧ safety_factor 6 2 = ((3 : ℝ) : EReal) := by
  constructor
  · exact (safety_factor_convention 5 0).1 rfl
  · rw [(safety_factor_convention 6 2).2 (by norm_num)]
    norm_num

lemma radians_pos {x : ℝ} (hx : 0 < x) : 0 < radians x := by
  unfold radians
  positivity

lemma radians_lt_pi_div_two {x : ℝ} (hx : x < 90) : radians x < π / 2 := by
  unfold radians
  have h1 : 0 < (90 - x) * (π / 180) := mul_pos (by linarith) (by positivity)
  nlinarith [h1]

/-- C7: the Rankine active and passive earth-pressure coefficients are exact
reciprocals for every friction angle strictly between 0 and 90 degrees. -/
theorem active_passive_reciprocal (friction_angle : ℝ)
    (h0 : 0 < friction_angle) (h90 : friction_angle < 90) :
    calculate_active_earth_pressure_coefficient friction_angle *
      calculate_passive_earth_pressure_coefficient friction_angle = 1 := by
  unfold calculate_active_earth_pressure_coefficient
    calculate_passive_earth_pressure_coefficient
  have hsum : radians (45 + friction_angle / 2) =
      π / 2 - radians (45 - friction_angle / 2) := by
    unfold radians; ring
  rw [hsum, Real.tan_pi_div_two_sub]
  have hpos : 0 < Real.tan (radians (45 - friction_angle / 2)) := by
    apply Real.tan_pos_of_pos_of_lt_pi_div_two
    · exact radians_pos (by linarith)
    · exact radians_lt_pi_div_two (by linarith)
  have hne : Real.tan (radians (45 - friction_angle / 2)) ≠ 0 := hpos.ne'
  rw [← mul_pow, mul_inv_cancel₀ hne, one_pow]

/-- Witness for C7 at friction angle 30 degrees. -/
theorem active_passive_reciprocal_witness :
    calculate_active_earth_pressure_coefficient 30 *
      calculate_passive_earth_pressure_coefficient 30 = 1 :=
  active_passive_reciprocal 30 (by norm_num) (by norm_num)

lemma radians_thirty : radians 30 = π / 6 := by
  unfold radians; ring

lemma active_coefficient_thirty :
    calculate_active_earth_pressure_coefficient 30 = 1 / 3 := by
  unfold calculate_active_earth_pressure_coefficient
  have h : (45 : ℝ) - 30 / 2 = 30 := by norm_num
  rw [h, radians_thirty, Real.tan_pi_div_six, div_pow, one_pow,
    sq_sqrt (by norm_num : (0:ℝ) ≤ 3)]

lemma total_active_force_scenario_three :
    calculate_total_active_force 5 18 30 0 0 = (75, 5 / 3) := by
  unfold calculate_total_active_force
  rw [active_coefficient_thirty]
  norm_num

/-- C6: the total active force is Fa = 0.5*Ka*gamma*H^2 + Ka*q*H, the
resultant acts at the moment-weighted centroid, cohesion has no effect, and
for H = 5, gamma = 18, phi = 30, q = 0 the force is 75 kN/m with the
resultant exactly at H/3 above the base. -/
theorem total_active_force_formula :
    (∀ wall_height unit_weight friction_angle cohesion surcharge : ℝ,
      0 < wall_height → 0 < unit_weight → 0 ≤ friction_angle →
      friction_angle < 90 → 0 ≤ surcharge →
      (calculate_total_active_force wall_height unit_weight friction_angle
          cohesion surcharge).1 =
        0.5 * calculate_active_earth_pressure_coefficient friction_angle *
            unit_weight * wall_height ^ 2 +
          calculate_active_earth_pressure_coefficient friction_angle *
            surcharge * wall_height ∧
      (calculate_total_active_force wall_height unit_weight friction_angle
          cohesion surcharge).2 =
        (0.5 * calculate_active_earth_pressure_coefficient friction_angle *
              unit_weight * wall_height ^ 2 * (wall_height / 3) +
            calculate_active_earth_pressure_coefficient friction_angle *
              surcharge * wall_height * (wall_height / 2)) /
          (calculate_total_active_force wall_height unit_weight friction_angle
            cohesion surcharge).1 ∧
      (∀ cohesion' : ℝ,
        calculate_total_active_force wall_height unit_weight friction_angle
          cohesion surcharge =
        calculate_total_active_force wall_height unit_weight friction_angle
          cohesion' surcharge)) ∧
    (calculate_total_active_force 5 18 30 0 0).1 = 75 ∧
    (calculate_total_active_force 5 18 30 0 0).2 = 5 / 3 := by
  refine ⟨fun H γ φ c q hH hγ hφ0 hφ90 hq => ⟨?_, ?_, fun c' => rfl⟩, ?_, ?_⟩
  · simp only [calculate_total_active_force]
    ring
  · simp only [calculate_total_active_force]
    ring
  · rw [total_active_force_scenario_three]
  · rw [total_active_force_scenario_three]

/-- Witness for C6 at H = 5, gamma = 18, phi = 30, c = 0, q = 10. -/
theorem total_active_force_formula_witness :
    (calculate_total_active_force 5 18 30 0 10).1 =
      0.5 * calculate_active_earth_pressure_coefficient 30 * 18 * 5 ^ 2 +
        calculate_active_earth_pressure_coefficient 30 * 10 * 5 :=
  (total_active_force_formula.1 5 18 30 0 10 (by norm_num) (by norm_num)
    (by norm_num) (by norm_num) (by norm_num)).1

/-- C5: the pile-group efficiency is the stated piecewise-linear function of
the spacing-to-diameter ratio, positive, at most 1, equal to 1 for ratio at
least 6, equal to 0.7 at ratio 3, independent of the number of piles, and
monotonically non-decreasing in the ratio. -/
theorem pile_group_efficiency_piecewise
    (num_piles : ℕ) (spacing diameter : ℝ)
    (hs : 0 < spacing) (hd : 0 < diameter) :
    (6 ≤ spacing / diameter →
      calculate_pile_group_efficiency num_piles spacing diameter = 1) ∧
    (3 ≤ spacing / diameter → spacing / diameter < 6 →
      calculate_pile_group_efficiency num_piles spacing diameter =
        0.7 + 0.3 * (spacing / diameter - 3) / 3) ∧
    (spacing / diameter < 3 →
      calculate_pile_group_efficiency num_piles spacing diameter =
        0.7 * (spacing / diameter) / 3) ∧
    0 < calculate_pile_group_efficiency num_piles spacing diameter ∧
    calculate_pile_group_efficiency num_piles spacing diameter ≤ 1 ∧
    (spacing / diameter = 3 →
      calculate_pile_group_efficiency num_piles spacing diameter = 0.7) ∧
    (∀ n' : ℕ, calculate_pile_group_efficiency n' spacing diameter =
      calculate_pile_group_efficiency num_piles spacing diameter) ∧
    (∀ spacing' : ℝ, spacing ≤ spacing' →
      calculate_pile_group_efficiency num_piles spacing diameter ≤
        calculate_pile_group_efficiency num_piles spacing' diameter) := by
  have hr : 0 < spacing / diameter := div_pos hs hd
  refine ⟨?_, ?_, ?_, ?_, ?_, ?_, fun n' => rfl, ?_⟩
  · intro h6
    simp only [calculate_pile_group_efficiency]
    rw [if_pos h6]
    norm_num
  · intro h3 h6
    simp only [calculate_pile_group_efficiency]
    rw [if_neg (by simpa using not_le.mpr h6), if_pos h3]
    exact min_eq_left (by norm_num; linarith)
  · intro h3
    simp only [calculate_pile_group_efficiency]
    rw [if_neg (by simpa using not_le.mpr (by linarith : spacing / diameter < 6)),
      if_neg (by simpa using not_le.mpr h3)]
    exact min_eq_left (by norm_num; linarith)
  · simp only [calculate_pile_group_efficiency]
    apply lt_min _ (by norm_num)
    split_ifs with h6 h3
    · norm_num
    · norm_num; linarith
    · norm_num; linarith
  · simp only [calculate_pile_group_efficiency]
    exact le_trans (min_le_right _ _) (by norm_num)
  · intro h3
    simp only [calculate_pile_group_efficiency]
    rw [h3]
    rw [if_neg (by norm_num), if_pos (by norm_num)]
    norm_num
  · intro spacing' hs'
    have hr' : spacing / diameter ≤ spacing' / diameter :=
      (div_le_div_iff_of_pos_right hd).mpr hs'
    simp only [calculate_pile_group_efficiency]
    apply min_le_min _ le_rfl
    split_ifs <;> norm_num <;> linarith

/-- Witness for C5 at 4 piles, spacing 2.4, diameter 0.8 (ratio exactly 3). -/
theorem pile_group_efficiency_piecewise_witness :
    calculate_pile_group_efficiency 4 2.4 0.8 = 0.7 :=
  (pile_group_efficiency_piecewise 4 2.4 0.8 (by norm_num)
    (by norm_num)).2.2.2.2.2.1 (by norm_num)

lemma skin_friction_driven (pile_diameter pile_length unit_weight friction_angle cohesion : ℝ) :
    calculate_pile_skin_friction pile_diameter pile_length unit_weight
        friction_angle cohesion "driven" =
      (cohesion + 0.8 * (unit_weight * pile_length / 2) *
          Real.tan (radians (0.75 * friction_angle))) *
        (π * pile_diameter) * pile_length := by
  simp only [calculate_pile_skin_friction]
  norm_num

lemma skin_friction_bored (pile_diameter pile_length unit_weight friction_angle cohesion : ℝ) :
    calculate_pile_skin_friction pile_diameter pile_length unit_weight
        friction_angle cohesion "bored" =
      (cohesion + 0.7 * (unit_weight * pile_length / 2) *
          Real.tan (radians (0.6 * friction_angle))) *
        (π * pile_diameter) * pile_length := by
  have hb : ¬ (("bored" : String) = "driven") := by decide
  simp only [calculate_pile_skin_friction, if_neg hb]

/-- C8 counterexample: at friction angle exactly 0 (allowed by the claimed
range [0, 90)) the driven and bored ultimate capacities coincide, so the
claimed strict inequality fails. -/
theorem driven_eq_bored_at_phi_zero :
    ¬ ((calculate_pile_capacity 1 1 1 0 0 "driven" 2.5).1 >
        (calculate_pile_capacity 1 1 1 0 0 "bored" 2.5).1) := by
  have h : (calculate_pile_capacity 1 1 1 0 0 "driven" 2.5).1 =
      (calculate_pile_capacity 1 1 1 0 0 "bored" 2.5).1 := by
    show calculate_pile_end_bearing 1 1 1 0 0 +
        calculate_pile_skin_friction 1 1 1 0 0 "driven" =
      calculate_pile_end_bearing 1 1 1 0 0 +
        calculate_pile_skin_friction 1 1 1 0 0 "bored"
    rw [skin_friction_driven, skin_friction_bored]
    norm_num [radians_zero, Real.tan_zero]
  rw [h]
  exact lt_irrefl _

/-- C8 amended: for identical pile geometry and soil with strictly positive
friction angle below 90 degrees, the driven-pile ultimate capacity strictly
exceeds the bored-pile ultimate capacity. -/
theorem driven_gt_bored_pos_phi
    (pile_diameter pile_length unit_weight friction_angle cohesion
      factor_of_safety : ℝ)
    (hD : 0 < pile_diameter) (hL : 0 < pile_length) (hγ : 0 < unit_weight)
    (hc : 0 ≤ cohesion) (h0 : 0 < friction_angle) (h90 : friction_angle < 90) :
    (calculate_pile_capacity pile_diameter pile_length unit_weight
        friction_angle cohesion "driven" factor_of_safety).1 >
      (calculate_pile_capacity pile_diameter pile_length unit_weight
        friction_angle cohesion "bored" factor_of_safety).1 := by
  have hσ : 0 < unit_weight * pile_length / 2 := by positivity
  have htb : 0 < Real.tan (radians (0.6 * friction_angle)) :=
    Real.tan_pos_of_pos_of_lt_pi_div_two (radians_pos (by linarith))
      (radians_lt_pi_div_two (by linarith))
  have htd : Real.tan (radians (0.6 * friction_angle)) <
      Real.tan (radians (0.75 * friction_angle)) := by
    apply Real.tan_lt_tan_of_nonneg_of_lt_pi_div_two
    · exact (radians_pos (by linarith)).le
    · exact radians_lt_pi_div_two (by linarith)
    · unfold radians
      have hπ := Real.pi_pos
      nlinarith
  have hfs : cohesion + 0.7 * (unit_weight * pile_length / 2) *
      Real.tan (radians (0.6 * friction_angle)) <
    cohesion + 0.8 * (unit_weight * pile_length / 2) *
      Real.tan (radians (0.75 * friction_angle)) := by
    nlinarith [mul_pos hσ htb, mul_lt_mul_of_pos_left htd hσ]
  have hPD : 0 < π * pile_diameter := by positivity
  have hQs : calculate_pile_skin_friction pile_diameter pile_length unit_weight
      friction_angle cohesion "bored" <
    calculate_pile_skin_friction pile_diameter pile_length unit_weight
      friction_angle cohesion "driven" := by
    rw [skin_friction_driven, skin_friction_bored]
    exact mul_lt_mul_of_pos_right
      (mul_lt_mul_of_pos_right hfs hPD) hL
  show calculate_pile_end_bearing pile_diameter unit_weight pile_length
      friction_angle cohesion +
    calculate_pile_skin_friction pile_diameter pile_length unit_weight
      friction_angle cohesion "driven" >
    calculate_pile_end_bearing pile_diameter unit_weight pile_length
      friction_angle cohesion +
    calculate_pile_skin_friction pile_diameter pile_length unit_weight
      friction_angle cohesion "bored"
  exact add_lt_add_left hQs _

/-- Witness for the amended C8 at diameter 1, length 1, unit weight 1,
friction angle 30, cohesion 0, factor of safety 2.5. -/
theorem driven_gt_bored_pos_phi_witness :
    (calculate_pile_capacity 1 1 1 30 0 "driven" 2.5).1 >
      (calculate_pile_capacity 1 1 1 30 0 "bored" 2.5).1 :=
  driven_gt_bored_pos_phi 1 1 1 30 0 2.5 (by norm_num) (by norm_num)
    (by norm_num) (by norm_num) (by norm_num) (by norm_num)

lemma tan_radians_nonneg {x : ℝ} (h0 : 0 ≤ x) (h90 : x < 90) :
    0 ≤ Real.tan (radians x) := by
  apply Real.tan_nonneg_of_nonneg_of_le_pi_div_two
  · unfold radians
    exact mul_nonneg h0 (by positivity)
  · exact (radians_lt_pi_div_two h90).le

lemma one_le_Nq {φ : ℝ} (h0 : 0 ≤ φ) (h90 : φ < 90) :
    1 ≤ Real.exp (π * Real.tan (radians φ)) *
      (Real.tan (radians (45 + φ / 2))) ^ 2 := by
  have hexp : 1 ≤ Real.exp (π * Real.tan (radians φ)) :=
    Real.one_le_exp (mul_nonneg Real.pi_pos.le (tan_radians_nonneg h0 h90))
  have htan : 1 ≤ Real.tan (radians (45 + φ / 2)) := by
    have h1 : π / 4 ≤ radians (45 + φ / 2) := by
      unfold radians
      nlinarith [Real.pi_pos, mul_nonneg h0 Real.pi_pos.le]
    rcases eq_or_lt_of_le h1 with h | h
    · rw [← h, Real.tan_pi_div_four]
    · have hlt := Real.tan_lt_tan_of_nonneg_of_lt_pi_div_two
        (by positivity : (0:ℝ) ≤ π / 4)
        (radians_lt_pi_div_two (by linarith)) h
      rw [Real.tan_pi_div_four] at hlt
      exact hlt.le
  have hT2 : 1 ≤ (Real.tan (radians (45 + φ / 2))) ^ 2 := by nlinarith [htan]
  calc (1:ℝ) = 1 * 1 := by ring
  _ ≤ Real.exp (π * Real.tan (radians φ)) *
      (Real.tan (radians (45 + φ / 2))) ^ 2 :=
    mul_le_mul hexp hT2 (by norm_num) (le_trans (by norm_num) hexp)

lemma factors_nonneg {φ : ℝ} (h0 : 0 ≤ φ) (h90 : φ < 90) :
    0 ≤ (calculate_bearing_capacity_factors φ).1 ∧
    0 ≤ (calculate_bearing_capacity_factors φ).2.1 ∧
    0 ≤ (calculate_bearing_capacity_factors φ).2.2 := by
  have hNq := one_le_Nq h0 h90
  have ht := tan_radians_nonneg h0 h90
  simp only [calculate_bearing_capacity_factors]
  refine ⟨?_, by linarith, ?_⟩
  · split_ifs with h
    · exact div_nonneg (by linarith)
        (Real.tan_pos_of_pos_of_lt_pi_div_two (radians_pos h)
          (radians_lt_pi_div_two h90)).le
    · norm_num
  · exact mul_nonneg (mul_nonneg (by norm_num) (by linarith)) ht

lemma group_efficiency_pos (n : ℕ) (s d : ℝ) (hs : 0 < s) (hd : 0 < d) :
    0 < calculate_pile_group_efficiency n s d := by
  have hr : 0 < s / d := div_pos hs hd
  simp only [calculate_pile_group_efficiency]
  apply lt_min _ (by norm_num)
  split_ifs with h6 h3
  · norm_num
  · norm_num; linarith
  · norm_num; linarith

/-- C3: for valid inputs every value returned by the calculators is
non-negative: ultimate and allowable bearing capacity, applied pressure,
pile end bearing, skin friction, ultimate and allowable pile capacity,
group efficiency, and total active force. -/
theorem calculator_outputs_nonneg
    (width length depth load pile_diameter pile_length spacing diameter
      wall_height unit_weight cohesion friction_angle surcharge : ℝ)
    (pile_type : String) (num_piles : ℕ)
    (hw : 0 < width) (hl : 0 < length) (hdep : 0 < depth) (hload : 0 ≤ load)
    (hD : 0 < pile_diameter) (hLp : 0 < pile_length) (hsp : 0 < spacing)
    (hdia : 0 < diameter) (hH : 0 < wall_height) (hγ : 0 < unit_weight)
    (hc : 0 ≤ cohesion) (h0 : 0 ≤ friction_angle) (h90 : friction_angle < 90)
    (hq : 0 ≤ surcharge) :
    0 ≤ calculate_ultimate_bearing_capacity width length depth unit_weight
        cohesion friction_angle ∧
    0 ≤ calculate_allowable_bearing_capacity
        (calculate_ultimate_bearing_capacity width length depth unit_weight
          cohesion friction_angle) 3 ∧
    0 ≤ calculate_applied_pressure load width length ∧
    0 ≤ (calculate_pile_capacity pile_diameter pile_length unit_weight
        friction_angle cohesion pile_type 2.5).2.2.1 ∧
    0 ≤ (calculate_pile_capacity pile_diameter pile_length unit_weight
        friction_angle cohesion pile_type 2.5).2.2.2 ∧
    0 ≤ (calculate_pile_capacity pile_diameter pile_length unit_weight
        friction_angle cohesion pile_type 2.5).1 ∧
    0 ≤ (calculate_pile_capacity pile_diameter pile_length unit_weight
        friction_angle cohesion pile_type 2.5).2.1 ∧
    0 ≤ calculate_pile_group_efficiency num_piles spacing diameter ∧
    0 ≤ (calculate_total_active_force wall_height unit_weight friction_angle
        cohesion surcharge).1 := by
  obtain ⟨hNc, hNq0, hNγ⟩ := factors_nonneg h0 h90
  have hqu : 0 ≤ calculate_ultimate_bearing_capacity width length depth
      unit_weight cohesion friction_angle := by
    simp only [calculate_ultimate_bearing_capacity]
    exact add_nonneg (add_nonneg (mul_nonneg hc hNc)
      (mul_nonneg (mul_nonneg hγ.le hdep.le) hNq0))
      (mul_nonneg (mul_nonneg (mul_nonneg (by norm_num) hγ.le) hw.le) hNγ)
  have hQb : 0 ≤ calculate_pile_end_bearing pile_diameter unit_weight
      pile_length friction_angle cohesion := by
    have hNq := one_le_Nq h0 h90
    simp only [calculate_pile_end_bearing]
    apply mul_nonneg _ (by positivity)
    exact add_nonneg (mul_nonneg hc (by norm_num))
      (mul_nonneg (mul_nonneg hγ.le hLp.le) (by linarith))
  have hQs : 0 ≤ calculate_pile_skin_friction pile_diameter pile_length
      unit_weight friction_angle cohesion pile_type := by
    have hσ : 0 ≤ unit_weight * pile_length / 2 := by
      have := mul_nonneg hγ.le hLp.le
      linarith
    simp only [calculate_pile_skin_friction]
    split_ifs with hty
    · refine mul_nonneg (mul_nonneg (add_nonneg hc ?_) (by positivity)) hLp.le
      exact mul_nonneg (mul_nonneg (by norm_num) hσ)
        (tan_radians_nonneg (by linarith) (by linarith))
    · refine mul_nonneg (mul_nonneg (add_nonneg hc ?_) (by positivity)) hLp.le
      exact mul_nonneg (mul_nonneg (by norm_num) hσ)
        (tan_radians_nonneg (by linarith) (by linarith))
  have hFa : 0 ≤ (calculate_total_active_force wall_height unit_weight
      friction_angle cohesion surcharge).1 := by
    have hKa : 0 ≤ Real.tan (radians (45 - friction_angle / 2)) ^ 2 :=
      sq_nonneg _
    simp only [calculate_total_active_force,
      calculate_active_earth_pressure_coefficient]
    exact add_nonneg
      (mul_nonneg (mul_nonneg (by norm_num)
        (mul_nonneg (mul_nonneg hKa hγ.le) hH.le)) hH.le)
      (mul_nonneg (mul_nonneg hKa hq) hH.le)
  refine ⟨hqu, div_nonneg hqu (by norm_num),
    div_nonneg hload (mul_pos hw hl).le, hQb, hQs, ?_, ?_,
    (group_efficiency_pos num_piles spacing diameter hsp hdia).le, hFa⟩
  · show 0 ≤ calculate_pile_end_bearing pile_diameter unit_weight pile_length
        friction_angle cohesion +
      calculate_pile_skin_friction pile_diameter pile_length unit_weight
        friction_angle cohesion pile_type
    exact add_nonneg hQb hQs
  · show 0 ≤ (calculate_pile_end_bearing pile_diameter unit_weight pile_length
        friction_angle cohesion +
      calculate_pile_skin_friction pile_diameter pile_length unit_weight
        friction_angle cohesion pile_type) / 2.5
    exact div_nonneg (add_nonneg hQb hQs) (by norm_num)

/-- Witness for C3 at the source-default geometry and soil values. -/
theorem calculator_outputs_nonneg_witness :
    0 ≤ calculate_ultimate_bearing_capacity 2 2 1 18 10 30 ∧
    0 ≤ calculate_allowable_bearing_capacity
        (calculate_ultimate_bearing_capacity 2 2 1 18 10 30) 3 ∧
    0 ≤ calculate_applied_pressure 1000 2 2 ∧
    0 ≤ (calculate_pile_capacity 0.6 15 18 30 10 "bored" 2.5).2.2.1 ∧
    0 ≤ (calculate_pile_capacity 0.6 15 18 30 10 "bored" 2.5).2.2.2 ∧
    0 ≤ (calculate_pile_capacity 0.6 15 18 30 10 "bored" 2.5).1 ∧
    0 ≤ (calculate_pile_capacity 0.6 15 18 30 10 "bored" 2.5).2.1 ∧
    0 ≤ calculate_pile_group_efficiency 4 1.8 0.6 ∧
    0 ≤ (calculate_total_active_force 5 18 30 10 10).1 :=
  calculator_outputs_nonneg 2 2 1 1000 0.6 15 1.8 0.6 5 18 10 30 10 "bored" 4
    (by norm_num) (by norm_num) (by norm_num) (by norm_num) (by norm_num)
    (by norm_num) (by norm_num) (by norm_num) (by norm_num) (by norm_num)
    (by norm_num) (by norm_num) (by norm_num) (by norm_num)

end ENGIPIT
